import Mathlib

/-!
Verification of the PDF bounding-box annotation tool's geometry and
detection core.  JavaScript numbers are modelled as rationals, `null` and
`undefined` as `Option`, thrown exceptions as `Except`, and `Date.now()`
as an explicit `now : ℕ` parameter.  All definitions are transliterated
from the TypeScript source.
-/

/-- The length unit of a stored rectangle (`'px' | 'mm' | 'pt'` in
`utils/types.ts`, there named `Unit`). -/
inductive LenUnit
  | px
  | mm
  | pt
  deriving DecidableEq, Repr

/-- Provenance tag (`BoundingBoxKind` in `utils/types.ts`). -/
inductive BoxKind
  | manual
  | ocr
  | table
  deriving DecidableEq, Repr

/-- A rectangle `{x, y, width, height}` of JS numbers. -/
structure Rect where
  x : ℚ
  y : ℚ
  width : ℚ
  height : ℚ
  deriving DecidableEq, Repr

/-- `CoordinateConversion` from `utils/coordinateConversion.ts`: the same
rectangle expressed in points, pixels and millimeters. -/
structure CoordinateConversion where
  pt : Rect
  px : Rect
  mm : Rect
  deriving DecidableEq, Repr

/-- `Dimensions` from `utils/coordinateConversion.ts` (also used for the
`clientWidth`/`clientHeight` of the on-screen image element). -/
structure Dimensions where
  width : ℚ
  height : ℚ
  deriving DecidableEq, Repr

/-- JS `Math.round`: round to the nearest integer, ties toward `+∞`. -/
def mathRound (q : ℚ) : ℤ :=
  ⌊q + 1 / 2⌋

/-- The ubiquitous `Math.round(v * 100) / 100` idiom: round to 2 decimals. -/
def round2 (q : ℚ) : ℚ :=
  (mathRound (q * 100) : ℚ) / 100

/-- `pointsToPixels` (`coordinateConversion.ts` line 30): note the source
multiplies and divides by 100 without `Math.round`, which cancels exactly. -/
def pointsToPixels (points : ℚ) : ℚ :=
  ((points / 0.75) * 100) / 100

/-- `pointsToMillimeters` (`coordinateConversion.ts` line 37): again no
`Math.round` in the source. -/
def pointsToMillimeters (points : ℚ) : ℚ :=
  ((points / 2.834645669) * 100) / 100

/-- `pixelsToPoints` (`coordinateConversion.ts` line 44). -/
def pixelsToPoints (pixels : ℚ) : ℚ :=
  pixels * 0.75

/-- `millimetersToPoints` (`coordinateConversion.ts` line 51). -/
def millimetersToPoints (millimeters : ℚ) : ℚ :=
  millimeters * 2.834645669

/-- `convertToUnits` (`coordinateConversion.ts` lines 189-213): identity
short-circuit, then from-unit → points → to-unit.  No rounding appears in
this exported function. -/
def convertToUnits (value : ℚ) (fromUnit toUnit : LenUnit) : ℚ :=
  if fromUnit = toUnit then value
  else
    let points : ℚ :=
      match fromUnit with
      | LenUnit.px => pixelsToPoints value
      | LenUnit.mm => millimetersToPoints value
      | LenUnit.pt => value
    match toUnit with
    | LenUnit.px => pointsToPixels points
    | LenUnit.mm => pointsToMillimeters points
    | LenUnit.pt => points

/-- Modelled from the spec: the "full from→point→to transform" of §4.1 and
§8, used as the reference against which `convertToUnits` is compared.  This
is the exact fixed-ratio conversion through the canonical unit `point`,
with no rounding applied. -/
def specUnitTransform (value : ℚ) (fromUnit toUnit : LenUnit) : ℚ :=
  let points : ℚ :=
    match fromUnit with
    | LenUnit.px => value * 0.75
    | LenUnit.mm => value * 2.834645669
    | LenUnit.pt => value
  match toUnit with
  | LenUnit.px => points / 0.75
  | LenUnit.mm => points / 2.834645669
  | LenUnit.pt => points

/-- `imageCoordsToPDFPoints` (`coordinateConversion.ts` lines 58-105):
raster coordinates at 300 DPI divided by `300/72`, each output field
rounded to 2 decimals independently, with pixel/millimeter siblings. -/
def imageCoordsToPDFPoints (imageX imageY imageWidth imageHeight : ℚ) :
    CoordinateConversion :=
  let dpiScale : ℚ := 300 / 72
  let pdfX := imageX / dpiScale
  let pdfY := imageY / dpiScale
  let pdfWidth := imageWidth / dpiScale
  let pdfHeight := imageHeight / dpiScale
  { pt :=
      { x := round2 pdfX, y := round2 pdfY
        width := round2 pdfWidth, height := round2 pdfHeight }
    px :=
      { x := round2 (pointsToPixels pdfX), y := round2 (pointsToPixels pdfY)
        width := round2 (pointsToPixels pdfWidth)
        height := round2 (pointsToPixels pdfHeight) }
    mm :=
      { x := round2 (pointsToMillimeters pdfX)
        y := round2 (pointsToMillimeters pdfY)
        width := round2 (pointsToMillimeters pdfWidth)
        height := round2 (pointsToMillimeters pdfHeight) } }

/-- `displayToImageCoords` (`coordinateConversion.ts` lines 110-149):
returns `null` when the raster dimensions or the on-screen image element
are missing, otherwise scales each axis by `original / client`. -/
def displayToImageCoords (displayX displayY displayWidth displayHeight : ℚ)
    (originalDimensions : Option Dimensions)
    (imageElement : Option Dimensions) : Option Rect :=
  match originalDimensions, imageElement with
  | some original, some element =>
    let scaleX := original.width / element.width
    let scaleY := original.height / element.height
    some
      { x := displayX * scaleX, y := displayY * scaleY
        width := displayWidth * scaleX, height := displayHeight * scaleY }
  | _, _ => none

/-- `pdfPointsToDisplayCoords` (`coordinateConversion.ts` lines 154-184):
points → 300 DPI raster coordinates → display coordinates. -/
def pdfPointsToDisplayCoords (pdfX pdfY pdfWidth pdfHeight : ℚ)
    (originalDimensions : Option Dimensions)
    (imageElement : Option Dimensions) : Option Rect :=
  match originalDimensions, imageElement with
  | some original, some element =>
    let dpiScale : ℚ := 300 / 72
    let imageX := pdfX * dpiScale
    let imageY := pdfY * dpiScale
    let imageWidth := pdfWidth * dpiScale
    let imageHeight := pdfHeight * dpiScale
    let scaleX := element.width / original.width
    let scaleY := element.height / original.height
    some
      { x := imageX * scaleX, y := imageY * scaleY
        width := imageWidth * scaleX, height := imageHeight * scaleY }
  | _, _ => none

/-- `BoundingBox` from `utils/types.ts`: canonical stored rectangle with a
declared unit and an optional provenance kind.  (`part_004` declares the
same shape without `kind`; its boxes are modelled with `kind := none`.) -/
structure BoundingBox where
  id : String
  x : ℚ
  y : ℚ
  width : ℚ
  height : ℚ
  unit : LenUnit
  kind : Option BoxKind
  deriving DecidableEq, Repr

/-- `Partial<BoundingBox>` as passed to `updateBoundingBox`: a field is
`none` when the key is absent from the object literal, `some v` when the
spread `{ ...box, ...updates }` will overwrite it with `v`. -/
structure BoundingBoxUpdate where
  id : Option String
  x : Option ℚ
  y : Option ℚ
  width : Option ℚ
  height : Option ℚ
  unit : Option LenUnit
  kind : Option (Option BoxKind)
  deriving DecidableEq, Repr

/-- The object spread `{ ...box, ...updates }` used by `updateBoundingBox`
(`useBoundingBoxes`, `part_000` lines 33-40). -/
def spreadUpdate (box : BoundingBox) (updates : BoundingBoxUpdate) :
    BoundingBox :=
  { id := updates.id.getD box.id
    x := updates.x.getD box.x
    y := updates.y.getD box.y
    width := updates.width.getD box.width
    height := updates.height.getD box.height
    unit := updates.unit.getD box.unit
    kind := updates.kind.getD box.kind }

/-- `updateBoundingBox` (`useBoundingBoxes`, `part_000` lines 33-40):
map over the list, spreading the updates into the box whose id matches. -/
def updateBoundingBox (boxes : List BoundingBox) (targetId : String)
    (updates : BoundingBoxUpdate) : List BoundingBox :=
  boxes.map fun box => if box.id = targetId then spreadUpdate box updates else box

/-- OCR hierarchy level (`OCRLevel` in `utils/types.ts`). -/
inductive OCRLevel
  | word
  | line
  | paragraph
  | block
  deriving DecidableEq, Repr

/-- The level name as it appears in generated ids. -/
def OCRLevel.name : OCRLevel → String
  | OCRLevel.word => "word"
  | OCRLevel.line => "line"
  | OCRLevel.paragraph => "paragraph"
  | OCRLevel.block => "block"

/-- The corner-form box Tesseract reports (`{x0, y0, x1, y1}`). -/
structure OriginalBBox where
  x0 : ℚ
  y0 : ℚ
  x1 : ℚ
  y1 : ℚ
  deriving DecidableEq, Repr

/-- The per-item bbox record built by `processOCRResult`: the original
corner-form box plus the three converted forms (`null` when the raster→point
converter was unavailable). -/
structure OCRItemBBox where
  original : OriginalBBox
  pt : Option Rect
  px : Option Rect
  mm : Option Rect
  deriving DecidableEq, Repr

/-- One OCR item (word / line / paragraph / block) as produced by
`processOCRResult` in `utils/ocrUtils.ts`.  `confidence := none` models a
missing or non-number-typed confidence (the `typeof` check in
`filterOCRResultsByConfidence`); `bbox := none` models a falsy bbox. -/
structure OCRItem where
  id : String
  text : String
  confidence : Option ℚ
  bbox : Option OCRItemBBox
  deriving DecidableEq, Repr

/-- `OCRResult` from `utils/ocrUtils.ts`. -/
structure OCRResult where
  text : String
  confidence : ℚ
  words : List OCRItem
  lines : List OCRItem
  paragraphs : List OCRItem
  blocks : List OCRItem
  deriving DecidableEq, Repr

/-- `OCRSettings` from `utils/types.ts`. -/
structure OCRSettings where
  language : String
  level : OCRLevel
  minConfidence : ℚ
  enhanceImage : Bool
  deriving DecidableEq, Repr

/-- `getOCRDataByLevel` (`utils/ocrUtils.ts` lines 268-283). -/
def getOCRDataByLevel (data : OCRResult) (level : OCRLevel) : List OCRItem :=
  match level with
  | OCRLevel.line => data.lines
  | OCRLevel.paragraph => data.paragraphs
  | OCRLevel.block => data.blocks
  | OCRLevel.word => data.words

/-- The confidence value the filter uses:
`typeof item.confidence === 'number' ? item.confidence : 0`. -/
def observedConfidence (item : OCRItem) : ℚ :=
  match item.confidence with
  | some c => c
  | none => 0

/-- `filterOCRResultsByConfidence` (`utils/ocrUtils.ts` lines 296-305):
keep the items whose observed confidence is `>=` the threshold. -/
def filterOCRResultsByConfidence (items : List OCRItem) (minConfidence : ℚ) :
    List OCRItem :=
  items.filter fun item => observedConfidence item ≥ minConfidence

/-- `generateBoundingBoxes` (`useOCR`, `part_002` lines 92-136): select the
level's items, filter by confidence, then for each surviving item (indexed
by its position in the filtered list) emit a box from its pre-converted
point coordinates — but only when `coords` is non-null and both
`coords.x !== 0` and `coords.y !== 0`.  Every emitted box has
`unit: 'pt'` and `kind: 'ocr'`; the `unitArg` parameter is unused, exactly
as in the source. -/
def generateBoundingBoxes (textData : Option OCRResult)
    (settings : OCRSettings) (now : ℕ) (unitArg : LenUnit) :
    List BoundingBox :=
  match textData with
  | none => []
  | some data =>
    let items := getOCRDataByLevel data settings.level
    let filteredItems := filterOCRResultsByConfidence items settings.minConfidence
    filteredItems.enum.filterMap fun p =>
      match p.2.bbox with
      | none => none
      | some bb =>
        match bb.pt with
        | some coords =>
          if coords.x ≠ 0 ∧ coords.y ≠ 0 then
            some
              { id := "ocr-" ++ settings.level.name ++ "-bbox-" ++
                  toString now ++ "-" ++ toString p.1
                x := coords.x, y := coords.y
                width := coords.width, height := coords.height
                unit := LenUnit.pt, kind := some BoxKind.ocr }
          else none
        | none => none

/-- A mouse point (`Point` in `utils/types.ts`). -/
structure MousePoint where
  x : ℚ
  y : ℚ
  deriving DecidableEq, Repr

/-- `handleMouseUp` of the image-pdf page (`page.tsx` lines 132-188),
reduced to the box it inserts: `none` models the early returns and the
rejected drags, `some box` the single `addBoundingBoxes([newBox])` call.
The display→PDF conversion is passed in as a function, as the page receives
it from its PDF hook. -/
def pageHandleMouseUp (isDrawing : Bool) (startPoint : Option MousePoint)
    (currentBox : Option BoundingBox) (currentX currentY : ℚ)
    (convertDisplayToPDF : ℚ → ℚ → ℚ → ℚ → Option CoordinateConversion)
    (now : ℕ) : Option BoundingBox :=
  match isDrawing, startPoint, currentBox with
  | true, some sp, some _ =>
    let width := |currentX - sp.x|
    let height := |currentY - sp.y|
    let boxX := min currentX sp.x
    let boxY := min currentY sp.y
    match convertDisplayToPDF boxX boxY width height with
    | some coords =>
      if width > 5 ∧ height > 5 then
        some
          { id := "bbox-" ++ toString now
            x := coords.pt.x, y := coords.pt.y
            width := coords.pt.width, height := coords.pt.height
            unit := LenUnit.pt, kind := some BoxKind.manual }
      else none
    | none => none
  | _, _, _ => none

/-- Table detection mode (`TableDetectionMode` in `utils/types.ts`). -/
inductive TableMode
  | table
  | cells
  | lines
  deriving DecidableEq, Repr

/-- `TableRegion` from the table-detection utilities. -/
structure TableRegion where
  x : ℚ
  y : ℚ
  width : ℚ
  height : ℚ
  deriving DecidableEq, Repr

/-- `TableCell` from the table-detection utilities: a rectangle plus its
zero-indexed grid position. -/
structure TableCell where
  x : ℚ
  y : ℚ
  width : ℚ
  height : ℚ
  row : ℕ
  col : ℕ
  deriving DecidableEq, Repr

/-- A raster image as a flat RGBA byte array (`Uint8ClampedArray`):
`data i` is the value at flat index `i`, with pixel `(x, y)` occupying
indices `(y * width + x) * 4 .. + 3`. -/
structure RawImage where
  width : ℕ
  height : ℕ
  data : ℕ → ℚ

/-- The grayscale value `(data[idx] + data[idx+1] + data[idx+2]) / 3` used
throughout the pixel-scan detector. -/
def grayAt (img : RawImage) (x y : ℕ) : ℚ :=
  let idx := (y * img.width + x) * 4
  (img.data idx + img.data (idx + 1) + img.data (idx + 2)) / 3

/-- The longest run of contiguous dark pixels (`gray < 128`) within row
`y`, tracked exactly as the source's `consecutiveDarkPixels` /
`maxConsecutive` pair. -/
def rowMaxRun (img : RawImage) (y : ℕ) : ℕ :=
  ((List.range img.width).foldl
    (fun acc x =>
      if grayAt img x y < 128 then (acc.1 + 1, max acc.2 (acc.1 + 1))
      else (0, acc.2))
    ((0, 0) : ℕ × ℕ)).2

/-- The longest run of contiguous dark pixels within column `x`. -/
def colMaxRun (img : RawImage) (x : ℕ) : ℕ :=
  ((List.range img.height).foldl
    (fun acc y =>
      if grayAt img x y < 128 then (acc.1 + 1, max acc.2 (acc.1 + 1))
      else (0, acc.2))
    ((0, 0) : ℕ × ℕ)).2

/-- `detectHorizontalLines` (`ocrUtils.ts` table utilities, lines 335-365):
keep every row whose longest dark run reaches `minLineLength` (the callers
use the default `width * 0.3`). -/
def detectHorizontalLines (img : RawImage) (minLineLength : ℚ) : List ℕ :=
  (List.range img.height).filter fun y => (rowMaxRun img y : ℚ) ≥ minLineLength

/-- `detectVerticalLines` (lines 370-400): keep every column whose longest
dark run reaches `minLineLength` (default `height * 0.3`). -/
def detectVerticalLines (img : RawImage) (minLineLength : ℚ) : List ℕ :=
  (List.range img.width).filter fun x => (colMaxRun img x : ℚ) ≥ minLineLength

/-- Insert into a sorted list, keeping order. -/
def insertSorted (a : ℕ) : List ℕ → List ℕ
  | [] => [a]
  | b :: rest => if a ≤ b then a :: b :: rest else b :: insertSorted a rest

/-- The numeric `lines.sort((a, b) => a - b)`: modelled as insertion sort,
which produces the same (sorted) array. -/
def sortNats (l : List ℕ) : List ℕ :=
  l.foldr insertSorted []

/-- `filterLines` (lines 405-422): sort, keep the first candidate, then
greedily keep a line only when it is at least
`minDistance = max(10, maxDimension * 0.01)` past the last kept one. -/
def filterLines (lines : List ℕ) (maxDimension : ℚ) : List ℕ :=
  let minDistance : ℚ := max 10 (maxDimension * 0.01)
  match sortNats lines with
  | [] => []
  | first :: rest =>
    (rest.foldl
      (fun (acc : List ℕ × ℕ) (l : ℕ) =>
        if (l : ℚ) - (acc.2 : ℚ) ≥ minDistance then (acc.1 ++ [l], l) else acc)
      ([first], first)).1

/-- `isValidCell` (lines 508-525): minimum size, maximum relative size,
containment in the image, and aspect-ratio bounds, tested in the source's
order. -/
def isValidCell (x y width height imgWidth imgHeight : ℚ) : Bool :=
  if width < 20 ∨ height < 15 then false
  else if width > imgWidth * 0.9 ∨ height > imgHeight * 0.9 then false
  else if x < 0 ∨ y < 0 ∨ x + width > imgWidth ∨ y + height > imgHeight then
    false
  else
    let aspect := width / height
    if aspect < 0.1 ∨ aspect > 10 then false
    else true

/-- `createCellsFromLines` (lines 530-563): with at least two lines on each
axis, form a cell from every consecutive pair of horizontal lines crossed
with every consecutive pair of vertical lines, keeping the valid ones. -/
def createCellsFromLines (horizontalLines verticalLines : List ℕ)
    (imgWidth imgHeight : ℚ) : List TableCell :=
  if horizontalLines.length < 2 ∨ verticalLines.length < 2 then []
  else
    (List.range (horizontalLines.length - 1)).flatMap fun row =>
      (List.range (verticalLines.length - 1)).filterMap fun col =>
        let cellX : ℚ := (verticalLines.getD col 0 : ℕ)
        let cellY : ℚ := (horizontalLines.getD row 0 : ℕ)
        let cellWidth : ℚ := ((verticalLines.getD (col + 1) 0 : ℕ) : ℚ) - cellX
        let cellHeight : ℚ := ((horizontalLines.getD (row + 1) 0 : ℕ) : ℚ) - cellY
        if isValidCell cellX cellY cellWidth cellHeight imgWidth imgHeight then
          some
            { x := cellX, y := cellY, width := cellWidth, height := cellHeight
              row := row, col := col }
        else none

/-- State of the flood-fill loop in `findTableRegion` (lines 452-503).  The
stack's head is the JS array's last element (the next `pop`). -/
structure FloodState where
  stack : List (ℤ × ℤ)
  regionPixels : List (ℤ × ℤ)
  visited : List (ℤ × ℤ)
  minX : ℤ
  maxX : ℤ
  minY : ℤ
  maxY : ℤ

/-- One-for-one transcription of `findTableRegion`'s while loop.  Fuel
stands in for the loop's own termination: each iteration pops one element
and at most `1 + 4 * 10000` elements are ever pushed (a push happens only
when a pixel joins `regionPixels`, which the `< 10000` guard caps), so
`50000` units of fuel are never exhausted. -/
def floodLoop (img : RawImage) : ℕ → FloodState → FloodState
  | 0, st => st
  | fuel + 1, st =>
    if st.regionPixels.length ≥ 10000 then st
    else
      match st.stack with
      | [] => st
      | (x, y) :: rest =>
        let st := { st with stack := rest }
        if (x, y) ∈ st.visited ∨ (x, y) ∈ st.regionPixels then
          floodLoop img fuel st
        else if x < 0 ∨ x ≥ (img.width : ℤ) ∨ y < 0 ∨ y ≥ (img.height : ℤ) then
          floodLoop img fuel st
        else if grayAt img x.toNat y.toNat < 150 then
          floodLoop img fuel
            { stack := (x, y - 1) :: (x, y + 1) :: (x - 1, y) :: (x + 1, y) :: rest
              regionPixels := (x, y) :: st.regionPixels
              visited := (x, y) :: st.visited
              minX := min st.minX x, maxX := max st.maxX x
              minY := min st.minY y, maxY := max st.maxY y }
        else floodLoop img fuel st

/-- `findTableRegion` (lines 452-503): flood-fill dark pixels
(`gray < 150`) from a seed, bounded at 10000 pixels, then accept the
bounding rectangle if it is at least 100×50 and at most 90% of the image in
each dimension.  Returns the region (or `null`) together with the updated
shared `visited` set. -/
def findTableRegion (img : RawImage) (startX startY : ℕ)
    (visited : List (ℤ × ℤ)) : Option TableRegion × List (ℤ × ℤ) :=
  let st := floodLoop img 50000
    { stack := [((startX : ℤ), (startY : ℤ))], regionPixels := []
      visited := visited
      minX := startX, maxX := startX, minY := startY, maxY := startY }
  let regionWidth := st.maxX - st.minX
  let regionHeight := st.maxY - st.minY
  if regionWidth < 100 ∨ regionHeight < 50 then (none, st.visited)
  else if (regionWidth : ℚ) > (img.width : ℚ) * 0.9 ∨
      (regionHeight : ℚ) > (img.height : ℚ) * 0.9 then (none, st.visited)
  else
    (some
      { x := (st.minX : ℚ), y := (st.minY : ℚ)
        width := (regionWidth : ℚ), height := (regionHeight : ℚ) },
     st.visited)

/-- `detectTableRegions` (lines 427-447): seed a flood fill every 20 px
over the `[0, dim - 50)` grid, sharing the `visited` set across seeds. -/
def detectTableRegions (img : RawImage) : List TableRegion :=
  let ys := (List.range (img.height - 50)).filter fun y => y % 20 = 0
  let xs := (List.range (img.width - 50)).filter fun x => x % 20 = 0
  let seeds := ys.flatMap fun y => xs.map fun x => (x, y)
  (seeds.foldl
    (fun (acc : List TableRegion × List (ℤ × ℤ)) seed =>
      if ((seed.1 : ℤ), (seed.2 : ℤ)) ∈ acc.2 then acc
      else
        let found := findTableRegion img seed.1 seed.2 acc.2
        match found.1 with
        | some region => (acc.1 ++ [region], found.2)
        | none => (acc.1, found.2))
    ([], [])).1

/-- The body of `detectTablesFallback` (`useTableDetection`, `part_003`
lines 430-534) once the image and canvas are available: scan for lines; in
`cells` mode with at least two lines on each axis build the grid cells;
then, in `table` mode or whenever nothing was produced, append the
flood-fill table regions.  Every box is converted raster→point and stored
with `unit: 'pt'`, `kind: 'table'`. -/
def detectTablesFallbackBoxes (now : ℕ) (img : RawImage) (mode : TableMode) :
    List BoundingBox :=
  let horizontalLines := detectHorizontalLines img ((img.width : ℚ) * 0.3)
  let verticalLines := detectVerticalLines img ((img.height : ℚ) * 0.3)
  let cellBoxes : List BoundingBox :=
    if horizontalLines.length ≥ 2 ∧ verticalLines.length ≥ 2 then
      if mode = TableMode.cells then
        let filteredHLines := filterLines horizontalLines (img.height : ℚ)
        let filteredVLines := filterLines verticalLines (img.width : ℚ)
        (createCellsFromLines filteredHLines filteredVLines
            (img.width : ℚ) (img.height : ℚ)).map fun cell =>
          let coords := imageCoordsToPDFPoints cell.x cell.y cell.width cell.height
          { id := "cell-" ++ toString now ++ "-" ++ toString cell.row ++ "-" ++
              toString cell.col
            x := coords.pt.x, y := coords.pt.y
            width := coords.pt.width, height := coords.pt.height
            unit := LenUnit.pt, kind := some BoxKind.table }
      else []
    else []
  if mode = TableMode.table ∨ cellBoxes.length = 0 then
    cellBoxes ++ (detectTableRegions img).enum.map fun p =>
      let coords := imageCoordsToPDFPoints p.2.x p.2.y p.2.width p.2.height
      { id := "table-region-" ++ toString now ++ "-" ++ toString p.1
        x := coords.pt.x, y := coords.pt.y
        width := coords.pt.width, height := coords.pt.height
        unit := LenUnit.pt, kind := some BoxKind.table }
  else cellBoxes

/-- `detectTablesFallback` itself: throws (`Except.error`) when no image is
available, otherwise runs the pixel scan, which always completes with a
(possibly empty) list. -/
def detectTablesFallback (now : ℕ) (imageDataUrl : Option RawImage)
    (mode : TableMode) : Except String (List BoundingBox) :=
  match imageDataUrl with
  | none => Except.error "No image available for table detection"
  | some img => Except.ok (detectTablesFallbackBoxes now img mode)

/-- `detectTables` (`part_003` lines 537-559): choose the fallback exactly
when `!cvLoaded || cvError || !window.cv`; the primary OpenCV strategy is
an opaque parameter here (its morphology engine is external).  The `catch`
block re-throws, so the result of either strategy — error included — passes
through unchanged. -/
def detectTables (now : ℕ) (cvLoaded : Bool) (cvError : Option String)
    (windowCv : Bool) (imageDataUrl : Option RawImage) (mode : TableMode)
    (primary : Except String (List BoundingBox)) :
    Except String (List BoundingBox) :=
  if ¬cvLoaded ∨ cvError.isSome ∨ ¬windowCv then
    detectTablesFallback now imageDataUrl mode
  else primary

/-- `convertCanvasToPDF` of the canvas tool (`part_004` lines 107-162):
scale canvas coordinates by the viewport ratio (passed in here, as it comes
from the loaded document), then round each field of all three unit forms to
2 decimals.  Returns `null` when no document is loaded. -/
def part004ConvertCanvasToPDF (hasDocument : Bool) (scaleX scaleY : ℚ)
    (canvasX canvasY canvasWidth canvasHeight : ℚ) :
    Option CoordinateConversion :=
  if hasDocument then
    let pdfX := canvasX * scaleX
    let pdfY := canvasY * scaleY
    let pdfWidth := canvasWidth * scaleX
    let pdfHeight := canvasHeight * scaleY
    some
      { pt :=
          { x := round2 pdfX, y := round2 pdfY
            width := round2 pdfWidth, height := round2 pdfHeight }
        px :=
          { x := round2 (pdfX / 0.75), y := round2 (pdfY / 0.75)
            width := round2 (pdfWidth / 0.75)
            height := round2 (pdfHeight / 0.75) }
        mm :=
          { x := round2 (pdfX / 2.834645669), y := round2 (pdfY / 2.834645669)
            width := round2 (pdfWidth / 2.834645669)
            height := round2 (pdfHeight / 2.834645669) } }
  else none

/-- `handleMouseUp` of the canvas tool (`part_004` lines 334-361), reduced
to the box it inserts.  Note the source builds the new box with
`unit: selectedUnit`, not `'pt'`, while taking its scalars from
`coords.pt`. -/
def part004HandleMouseUp (isDrawing : Bool) (startPoint : Option MousePoint)
    (currentBox : Option BoundingBox) (selectedUnit : LenUnit)
    (hasDocument : Bool) (scaleX scaleY : ℚ) (now : ℕ) :
    Option BoundingBox :=
  match isDrawing, startPoint, currentBox with
  | true, some _, some cb =>
    match part004ConvertCanvasToPDF hasDocument scaleX scaleY
        cb.x cb.y cb.width cb.height with
    | some coords =>
      if cb.width > 5 ∧ cb.height > 5 then
        some
          { id := "bbox-" ++ toString now
            x := coords.pt.x, y := coords.pt.y
            width := coords.pt.width, height := coords.pt.height
            unit := selectedUnit, kind := none }
      else none
    | none => none
  | _, _, _ => none

/-- The C8 synthetic image: 48×36 pixels, white except for three
evenly-spaced full-width horizontal dark bands (rows 2, 18, 34) and three
evenly-spaced full-height vertical dark bands (columns 2, 24, 46), each
band 1 px thick and spanning 100% ≥ 30% of the image. -/
def synthTableImg : RawImage :=
  { width := 48, height := 36
    data := fun i =>
      let channel := i % 4
      let p := i / 4
      let x := p % 48
      let y := p / 48
      if channel = 3 then 255
      else if x = 2 ∨ x = 24 ∨ x = 46 ∨ y = 2 ∨ y = 18 ∨ y = 34 then 0
      else 255 }

/-- A blank 3×3 all-white image: no lines, no regions. -/
def blankImg3 : RawImage :=
  { width := 3, height := 3, data := fun _ => 255 }

/-- C3: for every value `v` and unit `u`, `convertToUnits v u u` returns
exactly `v` — the identity short-circuit fires before any arithmetic. -/
theorem convertToUnits_identity (v : ℚ) (u : LenUnit) :
    convertToUnits v u u = v := by
  simp [convertToUnits]

/-- C2 counterexample: at `v = 1`, `pt → px`, the exported conversion
returns the exact value `4/3`, not its two-decimal rounding `1.33` (which
is what any tie rule produces here, the input not being a tie), so the
claim that `convert` rounds to 2 decimal places is false. -/
theorem convertToUnits_no_rounding_counterexample :
    convertToUnits 1 LenUnit.pt LenUnit.px = 4 / 3 ∧
    specUnitTransform 1 LenUnit.pt LenUnit.px = 4 / 3 ∧
    round2 (4 / 3) = 133 / 100 ∧
    (4 / 3 : ℚ) ≠ 133 / 100 := by
  refine ⟨by with_unfolding_all rfl, by with_unfolding_all rfl,
    by with_unfolding_all rfl, by norm_num⟩

/-- C2 (amended): for distinct units the exported `convertToUnits` returns
the full from→point→to transform of `v` exactly, with no rounding — the
`* 100 / 100` in its helpers cancels. -/
theorem convertToUnits_eq_exact_transform (v : ℚ) (u1 u2 : LenUnit)
    (h : u1 ≠ u2) :
    convertToUnits v u1 u2 = specUnitTransform v u1 u2 := by
  cases u1 <;> cases u2 <;>
    first
    | exact absurd rfl h
    | (simp only [convertToUnits, specUnitTransform, pointsToPixels,
        pointsToMillimeters, pixelsToPoints, millimetersToPoints, if_neg h]
       ring)
    | simp only [convertToUnits, specUnitTransform, pointsToPixels,
        pointsToMillimeters, pixelsToPoints, millimetersToPoints, if_neg h]

/-- C2 witness: the amended theorem applied at `v = 1`, `pt → px`. -/
theorem convertToUnits_eq_exact_transform_witness :
    convertToUnits 1 LenUnit.pt LenUnit.px =
      specUnitTransform 1 LenUnit.pt LenUnit.px :=
  convertToUnits_eq_exact_transform 1 LenUnit.pt LenUnit.px (by decide)

/-- C6: the display→raster conversion returns the `null` sentinel exactly
when the raster dimensions or the on-screen image element are unavailable;
with both available it scales each axis by `rasterDims / displayDims`. -/
theorem displayToImageCoords_sentinel_and_scale
    (dx dy dw dh : ℚ) (dims elem : Option Dimensions) :
    (displayToImageCoords dx dy dw dh dims elem = none ↔
      dims = none ∨ elem = none) ∧
    ∀ d e : Dimensions,
      displayToImageCoords dx dy dw dh (some d) (some e) =
        some
          { x := dx * (d.width / e.width), y := dy * (d.height / e.height)
            width := dw * (d.width / e.width)
            height := dh * (d.height / e.height) } := by
  constructor
  · cases dims <;> cases elem <;> simp [displayToImageCoords]
  · intro d e
    rfl

/-- `Math.round` lands within one half of its argument. -/
lemma mathRound_abs_le (q : ℚ) : |(mathRound q : ℚ) - q| ≤ 1 / 2 := by
  have h1 : ((⌊q + 1 / 2⌋ : ℤ) : ℚ) ≤ q + 1 / 2 := Int.floor_le _
  have h2 : q + 1 / 2 < ((⌊q + 1 / 2⌋ : ℤ) : ℚ) + 1 := Int.lt_floor_add_one _
  rw [mathRound, abs_le]
  constructor <;> linarith

/-- Two-decimal rounding lands within `1/200` of its argument. -/
lemma round2_abs_le (q : ℚ) : |round2 q - q| ≤ 1 / 200 := by
  have h := mathRound_abs_le (q * 100)
  have heq : round2 q - q = ((mathRound (q * 100) : ℚ) - q * 100) / 100 := by
    rw [round2]
    ring
  rw [heq, abs_div, abs_of_pos (by norm_num : (0 : ℚ) < 100)]
  linarith

/-- One field of the raster→point→display round trip: rounding the
point value to 2 decimals and scaling back up by `300/72` stays within
`(1/200) * (300/72) = 1/48` of the original raster value. -/
lemma roundtrip_field_abs_le (v W : ℚ) (hW : W ≠ 0) :
    |round2 (v / (300 / 72)) * (300 / 72) * (W / W) - v| ≤ 1 / 48 := by
  rw [div_self hW, mul_one]
  have hv : v / ((300 : ℚ) / 72) * (300 / 72) = v :=
    div_mul_cancel₀ v (by norm_num)
  have h := round2_abs_le (v / ((300 : ℚ) / 72))
  calc |round2 (v / ((300 : ℚ) / 72)) * (300 / 72) - v|
      = |(round2 (v / ((300 : ℚ) / 72)) - v / (300 / 72)) * (300 / 72)| := by
        rw [sub_mul, hv]
    _ = |round2 (v / ((300 : ℚ) / 72)) - v / (300 / 72)| * |(300 : ℚ) / 72| :=
        abs_mul _ _
    _ ≤ (1 / 200) * ((300 : ℚ) / 72) := by
        have habs : |(300 : ℚ) / 72| = 300 / 72 := by norm_num
        rw [habs]
        have : (0 : ℚ) ≤ 300 / 72 := by norm_num
        exact mul_le_mul_of_nonneg_right h this
    _ ≤ 1 / 48 := by norm_num

/-- C5: converting a raster rectangle at 300 DPI to points with
`imageCoordsToPDFPoints` and back to display coordinates with
`pdfPointsToDisplayCoords`, with the display element the same size as the
raster image, reproduces each field within the tolerance `1/48` introduced
by two-decimal rounding of the point values (half of `0.01`, scaled back
by `300/72`). -/
theorem rasterToPoint_pointToDisplay_roundtrip
    (x y w h W H : ℚ) (hW : 0 < W) (hH : 0 < H) :
    ∃ r : Rect,
      pdfPointsToDisplayCoords
        (imageCoordsToPDFPoints x y w h).pt.x
        (imageCoordsToPDFPoints x y w h).pt.y
        (imageCoordsToPDFPoints x y w h).pt.width
        (imageCoordsToPDFPoints x y w h).pt.height
        (some ⟨W, H⟩) (some ⟨W, H⟩) = some r ∧
      |r.x - x| ≤ 1 / 48 ∧ |r.y - y| ≤ 1 / 48 ∧
      |r.width - w| ≤ 1 / 48 ∧ |r.height - h| ≤ 1 / 48 := by
  refine ⟨_, rfl, ?_, ?_, ?_, ?_⟩ <;>
    simp only [pdfPointsToDisplayCoords, imageCoordsToPDFPoints] <;>
    first
    | exact roundtrip_field_abs_le x W (ne_of_gt hW)
    | exact roundtrip_field_abs_le y H (ne_of_gt hH)
    | exact roundtrip_field_abs_le w W (ne_of_gt hW)
    | exact roundtrip_field_abs_le h H (ne_of_gt hH)

/-- C5 witness: the round trip at the raster rectangle `(1, 2, 3, 4)` in a
`100 × 100` image. -/
theorem rasterToPoint_pointToDisplay_roundtrip_witness :
    ∃ r : Rect,
      pdfPointsToDisplayCoords
        (imageCoordsToPDFPoints 1 2 3 4).pt.x
        (imageCoordsToPDFPoints 1 2 3 4).pt.y
        (imageCoordsToPDFPoints 1 2 3 4).pt.width
        (imageCoordsToPDFPoints 1 2 3 4).pt.height
        (some ⟨100, 100⟩) (some ⟨100, 100⟩) = some r ∧
      |r.x - 1| ≤ 1 / 48 ∧ |r.y - 2| ≤ 1 / 48 ∧
      |r.width - 3| ≤ 1 / 48 ∧ |r.height - 4| ≤ 1 / 48 :=
  rasterToPoint_pointToDisplay_roundtrip 1 2 3 4 100 100
    (by norm_num) (by norm_num)

/-- C7 counterexample: a partial update whose object literal names `id`
overwrites the matched box's id — the spread `{ ...box, ...updates }` has
no guard — so "leaves the box's id unchanged for every partial-fields
argument" is false. -/
theorem updateBoundingBox_id_overwrite_counterexample :
    ((updateBoundingBox
        [⟨"a", 1, 2, 3, 4, LenUnit.pt, some BoxKind.manual⟩] "a"
        ⟨some "b", none, none, none, none, none, none⟩).headD
      ⟨"", 0, 0, 0, 0, LenUnit.pt, none⟩).id ≠ "a" := by
  with_unfolding_all decide

/-- C7 (amended): `updateBoundingBox` maps the list in place, so box count
and order are preserved and a box whose id differs from the target is
untouched; the matched box receives every field the partial names —
`{ ...box, ...updates }` overwrites named keys, `id` included — and keeps
every field the partial does not name, `id` included. -/
theorem updateBoundingBox_shallow_merge
    (boxes : List BoundingBox) (targetId : String)
    (updates : BoundingBoxUpdate) :
    (updateBoundingBox boxes targetId updates).length = boxes.length ∧
    ∀ (k : ℕ) (h1 : k < boxes.length)
      (h2 : k < (updateBoundingBox boxes targetId updates).length),
      ((boxes.get ⟨k, h1⟩).id ≠ targetId →
        (updateBoundingBox boxes targetId updates).get ⟨k, h2⟩ =
          boxes.get ⟨k, h1⟩) ∧
      ((boxes.get ⟨k, h1⟩).id = targetId →
        (∀ v, updates.id = some v →
          ((updateBoundingBox boxes targetId updates).get ⟨k, h2⟩).id = v) ∧
        (∀ v, updates.x = some v →
          ((updateBoundingBox boxes targetId updates).get ⟨k, h2⟩).x = v) ∧
        (∀ v, updates.y = some v →
          ((updateBoundingBox boxes targetId updates).get ⟨k, h2⟩).y = v) ∧
        (∀ v, updates.width = some v →
          ((updateBoundingBox boxes targetId updates).get ⟨k, h2⟩).width = v) ∧
        (∀ v, updates.height = some v →
          ((updateBoundingBox boxes targetId updates).get ⟨k, h2⟩).height = v) ∧
        (∀ v, updates.unit = some v →
          ((updateBoundingBox boxes targetId updates).get ⟨k, h2⟩).unit = v) ∧
        (∀ v, updates.kind = some v →
          ((updateBoundingBox boxes targetId updates).get ⟨k, h2⟩).kind = v) ∧
        (updates.id = none →
          ((updateBoundingBox boxes targetId updates).get ⟨k, h2⟩).id =
            (boxes.get ⟨k, h1⟩).id) ∧
        (updates.x = none →
          ((updateBoundingBox boxes targetId updates).get ⟨k, h2⟩).x =
            (boxes.get ⟨k, h1⟩).x) ∧
        (updates.y = none →
          ((updateBoundingBox boxes targetId updates).get ⟨k, h2⟩).y =
            (boxes.get ⟨k, h1⟩).y) ∧
        (updates.width = none →
          ((updateBoundingBox boxes targetId updates).get ⟨k, h2⟩).width =
            (boxes.get ⟨k, h1⟩).width) ∧
        (updates.height = none →
          ((updateBoundingBox boxes targetId updates).get ⟨k, h2⟩).height =
            (boxes.get ⟨k, h1⟩).height) ∧
        (updates.unit = none →
          ((updateBoundingBox boxes targetId updates).get ⟨k, h2⟩).unit =
            (boxes.get ⟨k, h1⟩).unit) ∧
        (updates.kind = none →
          ((updateBoundingBox boxes targetId updates).get ⟨k, h2⟩).kind =
            (boxes.get ⟨k, h1⟩).kind)) := by
  refine ⟨List.length_map _ _, ?_⟩
  intro k h1 h2
  have hget : (updateBoundingBox boxes targetId updates).get ⟨k, h2⟩ =
      if (boxes.get ⟨k, h1⟩).id = targetId then
        spreadUpdate (boxes.get ⟨k, h1⟩) updates
      else boxes.get ⟨k, h1⟩ := by
    simp [updateBoundingBox, List.get_map]
  by_cases hmatch : (boxes.get ⟨k, h1⟩).id = targetId
  · rw [hget, if_pos hmatch]
    refine ⟨fun hne => absurd hmatch hne, fun _ => ?_⟩
    refine ⟨?_, ?_, ?_, ?_, ?_, ?_, ?_, ?_, ?_, ?_, ?_, ?_, ?_, ?_⟩ <;>
      first
      | (intro v hv
         simp [spreadUpdate, hv])
      | (intro hn
         simp [spreadUpdate, hn])
  · rw [hget, if_neg hmatch]
    exact ⟨fun _ => rfl, fun hm => absurd hm hmatch⟩

/-- C7 witness: the amended theorem applied to a two-box store and a
partial that sets only `x`: the store keeps its size, the matched box
takes the new `x` and keeps its id, and the other box is untouched. -/
theorem updateBoundingBox_shallow_merge_witness :
    (updateBoundingBox
        [⟨"a", 1, 2, 3, 4, LenUnit.pt, some BoxKind.manual⟩,
         ⟨"b", 5, 6, 7, 8, LenUnit.pt, none⟩] "a"
        ⟨none, some 9, none, none, none, none, none⟩).length =
      (([⟨"a", 1, 2, 3, 4, LenUnit.pt, some BoxKind.manual⟩,
         ⟨"b", 5, 6, 7, 8, LenUnit.pt, none⟩] : List BoundingBox)).length ∧
    ((updateBoundingBox
        [⟨"a", 1, 2, 3, 4, LenUnit.pt, some BoxKind.manual⟩,
         ⟨"b", 5, 6, 7, 8, LenUnit.pt, none⟩] "a"
        ⟨none, some 9, none, none, none, none, none⟩).get
      ⟨0, by decide⟩).x = 9 ∧
    ((updateBoundingBox
        [⟨"a", 1, 2, 3, 4, LenUnit.pt, some BoxKind.manual⟩,
         ⟨"b", 5, 6, 7, 8, LenUnit.pt, none⟩] "a"
        ⟨none, some 9, none, none, none, none, none⟩).get
      ⟨0, by decide⟩).id = "a" ∧
    (updateBoundingBox
        [⟨"a", 1, 2, 3, 4, LenUnit.pt, some BoxKind.manual⟩,
         ⟨"b", 5, 6, 7, 8, LenUnit.pt, none⟩] "a"
        ⟨none, some 9, none, none, none, none, none⟩).get ⟨1, by decide⟩ =
      ⟨"b", 5, 6, 7, 8, LenUnit.pt, none⟩ := by
  have h := updateBoundingBox_shallow_merge
    [⟨"a", 1, 2, 3, 4, LenUnit.pt, some BoxKind.manual⟩,
     ⟨"b", 5, 6, 7, 8, LenUnit.pt, none⟩] "a"
    ⟨none, some 9, none, none, none, none, none⟩
  refine ⟨h.1, ?_, ?_, ?_⟩
  · exact ((h.2 0 (by decide) (by decide)).2 rfl).2.1 9 rfl
  · exact ((h.2 0 (by decide) (by decide)).2 rfl).2.2.2.2.2.2.2.1 rfl
  · exact (h.2 1 (by decide) (by decide)).1 (by decide)

/-- C9: the confidence filter keeps exactly the items whose observed
confidence (missing / non-number treated as 0) is at least the threshold,
so equality with the threshold is kept, strictly-below is removed, and a
missing confidence is excluded by any positive threshold. -/
theorem filterByConfidence_spec (items : List OCRItem) (minConfidence : ℚ)
    (item : OCRItem) :
    (item ∈ filterOCRResultsByConfidence items minConfidence ↔
      item ∈ items ∧ minConfidence ≤ observedConfidence item) ∧
    (item.confidence = none → 0 < minConfidence →
      item ∉ filterOCRResultsByConfidence items minConfidence) := by
  constructor
  · simp [filterOCRResultsByConfidence, List.mem_filter, ge_iff_le]
  · intro hnone hpos hmem
    have h0 : observedConfidence item = 0 := by
      simp [observedConfidence, hnone]
    have := (List.mem_filter.mp hmem).2
    rw [decide_eq_true_iff, ge_iff_le, h0] at this
    linarith

/-- C9 witness: at threshold 60, an item with missing confidence is
excluded. -/
theorem filterByConfidence_spec_witness :
    (⟨"w0", "x", none, none⟩ : OCRItem) ∉
      filterOCRResultsByConfidence [⟨"w0", "x", none, none⟩] 60 :=
  (filterByConfidence_spec [⟨"w0", "x", none, none⟩] 60
      ⟨"w0", "x", none, none⟩).2 rfl (by norm_num)

/-- Every box emitted by `generateBoundingBoxes` comes from a surviving
item whose converted point rectangle exists and has nonzero `x` and `y`,
and is stored in points with kind `ocr`. -/
lemma generateBoundingBoxes_mem (data : OCRResult) (settings : OCRSettings)
    (now : ℕ) (u : LenUnit) (b : BoundingBox)
    (hb : b ∈ generateBoundingBoxes (some data) settings now u) :
    b.unit = LenUnit.pt ∧ b.kind = some BoxKind.ocr ∧ b.x ≠ 0 ∧ b.y ≠ 0 := by
  simp only [generateBoundingBoxes, List.mem_filterMap] at hb
  obtain ⟨⟨i, item⟩, _, hp⟩ := hb
  cases hbox : item.bbox with
  | none => simp [hbox] at hp
  | some bb =>
    cases hpt : bb.pt with
    | none => simp [hbox, hpt] at hp
    | some coords =>
      simp only [hbox, hpt] at hp
      split_ifs at hp with hcond
      cases hp
      exact ⟨rfl, rfl, hcond.1, hcond.2⟩

/-- Counting lemma: a `filterMap` over an indexed list whose success is
index-independent has as many results as there are satisfying items. -/
lemma length_filterMap_enumFrom {α β : Type} (f : ℕ × α → Option β)
    (g : α → Bool) (hfg : ∀ i a, (f (i, a)).isSome = g a) :
    ∀ (l : List α) (n : ℕ),
      ((List.enumFrom n l).filterMap f).length = l.countP g := by
  intro l
  induction l with
  | nil => intro n; rfl
  | cons a l ih =>
    intro n
    have h := hfg n a
    cases hfa : f (n, a) with
    | none =>
      have hga : g a = false := by rw [← h, hfa]; rfl
      simp [List.enumFrom, List.filterMap_cons, hfa, List.countP_cons, hga, ih]
    | some b =>
      have hga : g a = true := by rw [← h, hfa]; rfl
      simp [List.enumFrom, List.filterMap_cons, hfa, List.countP_cons, hga, ih]

/-- C10: every box the OCR box generator returns has nonzero point-space
`x` and `y`, and the number of boxes equals the number of surviving items
whose converted point rectangle exists with `x ≠ 0` and `y ≠ 0` — so an
item flush against the top or left page edge is silently dropped. -/
theorem generateBoundingBoxes_zero_edge_excluded (data : OCRResult)
    (settings : OCRSettings) (now : ℕ) (u : LenUnit) :
    (generateBoundingBoxes (some data) settings now u).all
      (fun b => !(b.x == 0) && !(b.y == 0)) = true ∧
    (generateBoundingBoxes (some data) settings now u).length =
      (filterOCRResultsByConfidence (getOCRDataByLevel data settings.level)
          settings.minConfidence).countP
        (fun item =>
          match item.bbox with
          | some bb =>
            match bb.pt with
            | some coords => decide (coords.x ≠ 0 ∧ coords.y ≠ 0)
            | none => false
          | none => false) := by
  constructor
  · rw [List.all_eq_true]
    intro b hb
    have h := generateBoundingBoxes_mem data settings now u b hb
    simp [h.2.2.1, h.2.2.2]
  · have hrw : generateBoundingBoxes (some data) settings now u =
        (List.enumFrom 0
          (filterOCRResultsByConfidence (getOCRDataByLevel data settings.level)
            settings.minConfidence)).filterMap
          (fun p =>
            match p.2.bbox with
            | none => none
            | some bb =>
              match bb.pt with
              | some coords =>
                if coords.x ≠ 0 ∧ coords.y ≠ 0 then
                  some
                    { id := "ocr-" ++ settings.level.name ++ "-bbox-" ++
                        toString now ++ "-" ++ toString p.1
                      x := coords.x, y := coords.y
                      width := coords.width, height := coords.height
                      unit := LenUnit.pt, kind := some BoxKind.ocr }
                else none
              | none => none) := by
      simp [generateBoundingBoxes, List.enum]
    rw [hrw]
    apply length_filterMap_enumFrom
    intro i a
    cases habb : a.bbox with
    | none => simp [habb]
    | some bb =>
      cases hpt : bb.pt with
      | none => simp [habb, hpt]
      | some coords =>
        by_cases hcond : coords.x ≠ 0 ∧ coords.y ≠ 0 <;>
          simp [habb, hpt, hcond]

/-- Every box in the fallback detector's output is stored in points with
kind `table`. -/
lemma detectTablesFallbackBoxes_unit_pt (now : ℕ) (img : RawImage)
    (mode : TableMode) (b : BoundingBox)
    (hb : b ∈ detectTablesFallbackBoxes now img mode) :
    b.unit = LenUnit.pt ∧ b.kind = some BoxKind.table := by
  simp only [detectTablesFallbackBoxes] at hb
  repeat' split at hb
  all_goals
    first
    | cases hb
    | (obtain ⟨c, _, rfl⟩ := List.mem_map.mp hb
       exact ⟨rfl, rfl⟩)
    | (rw [List.mem_append] at hb
       rcases hb with h | h <;>
         first
         | cases h
         | (obtain ⟨c, _, rfl⟩ := List.mem_map.mp h
            exact ⟨rfl, rfl⟩))

/-- C1 / code bug: the OCR generator, the fallback table detector and the
image-pdf page's drag-release all insert boxes with `unit = 'pt'`, but the
canvas tool's drag-release (`part_004`) inserts the box with
`unit = selectedUnit` even though its scalars are the converted `coords.pt`
point values: at `selectedUnit = 'px'` (the default) and a 30×40 drag at
viewport scale 1, the inserted box carries point-space scalars labelled
`'px'`. -/
theorem producers_point_unit_except_canvas_tool :
    (∀ (textData : Option OCRResult) (settings : OCRSettings) (now : ℕ)
        (u : LenUnit),
      (generateBoundingBoxes textData settings now u).all
        (fun b => b.unit == LenUnit.pt) = true) ∧
    (∀ (now : ℕ) (img : RawImage) (mode : TableMode),
      (detectTablesFallbackBoxes now img mode).all
        (fun b => b.unit == LenUnit.pt) = true) ∧
    (∀ (isDrawing : Bool) (sp : Option MousePoint) (cb : Option BoundingBox)
        (cx cy : ℚ)
        (conv : ℚ → ℚ → ℚ → ℚ → Option CoordinateConversion) (now : ℕ),
      (pageHandleMouseUp isDrawing sp cb cx cy conv now).all
        (fun b => b.unit == LenUnit.pt) = true) ∧
    part004HandleMouseUp true (some ⟨0, 0⟩)
        (some ⟨"temp-0", 10, 20, 30, 40, LenUnit.px, none⟩)
        LenUnit.px true 1 1 0 =
      some ⟨"bbox-0", 10, 20, 30, 40, LenUnit.px, none⟩ := by
  refine ⟨?_, ?_, ?_, by with_unfolding_all rfl⟩
  · intro textData settings now u
    cases textData with
    | none => rfl
    | some data =>
      rw [List.all_eq_true]
      intro b hb
      have h := generateBoundingBoxes_mem data settings now u b hb
      simp [h.1]
  · intro now img mode
    rw [List.all_eq_true]
    intro b hb
    have h := detectTablesFallbackBoxes_unit_pt now img mode b hb
    simp [h.1]
  · intro isDrawing sp cb cx cy conv now
    cases isDrawing with
    | false => rfl
    | true =>
      cases sp with
      | none => rfl
      | some p =>
        cases cb with
        | none => rfl
        | some box =>
          simp only [pageHandleMouseUp]
          cases conv (min cx p.x) (min cy p.y) |cx - p.x| |cy - p.y| with
          | none => rfl
          | some coords => split_ifs <;> rfl

/-- C4: with the morphology engine unavailable (`cvLoaded = false`) and an
image present, `detectTables` returns the fallback's result as a success —
never an error — and when the scan finds neither lines nor flood-fill
regions the result is the empty list. -/
theorem detectTables_fallback_never_errors (now : ℕ) (img : RawImage)
    (mode : TableMode) (cvErr : Option String) (windowCv : Bool)
    (primary : Except String (List BoundingBox)) :
    detectTables now false cvErr windowCv (some img) mode primary =
      Except.ok (detectTablesFallbackBoxes now img mode) ∧
    (detectHorizontalLines img ((img.width : ℚ) * 0.3) = [] →
      detectTableRegions img = [] →
      detectTables now false cvErr windowCv (some img) mode primary =
        Except.ok []) := by
  have hsel : detectTables now false cvErr windowCv (some img) mode primary =
      detectTablesFallback now (some img) mode := by
    simp [detectTables]
  constructor
  · rw [hsel]
    rfl
  · intro hlines hregions
    rw [hsel]
    simp only [detectTablesFallback]
    congr 1
    simp [detectTablesFallbackBoxes, hlines, hregions]

/-- C4 witness: on a blank 3×3 image in `cells` mode with the engine
unavailable, detection succeeds with the empty list. -/
theorem detectTables_fallback_never_errors_witness :
    detectTables 0 false none false (some blankImg3) TableMode.cells
        (Except.ok []) = Except.ok [] :=
  (detectTables_fallback_never_errors 0 blankImg3 TableMode.cells none false
      (Except.ok [])).2 (by with_unfolding_all rfl) (by with_unfolding_all rfl)

set_option maxRecDepth 4000000 in
set_option maxHeartbeats 2000000 in
/-- C8: on the synthetic three-by-three-band image, the fallback pipeline
in `cells` mode produces exactly the 2×2 grid of cells with `row` and
`col` each taking the values 0 and 1, and the detector wraps them into
four point-unit table boxes. -/
theorem fallback_cells_two_by_two_grid :
    createCellsFromLines
        (filterLines
          (detectHorizontalLines synthTableImg ((synthTableImg.width : ℚ) * 0.3))
          (synthTableImg.height : ℚ))
        (filterLines
          (detectVerticalLines synthTableImg ((synthTableImg.height : ℚ) * 0.3))
          (synthTableImg.width : ℚ))
        (synthTableImg.width : ℚ) (synthTableImg.height : ℚ) =
      [⟨2, 2, 22, 16, 0, 0⟩, ⟨24, 2, 22, 16, 0, 1⟩,
       ⟨2, 18, 22, 16, 1, 0⟩, ⟨24, 18, 22, 16, 1, 1⟩] ∧
    detectTablesFallbackBoxes 0 synthTableImg TableMode.cells =
      [⟨"cell-0-0-0", 12/25, 12/25, 132/25, 96/25, LenUnit.pt, some BoxKind.table⟩,
       ⟨"cell-0-0-1", 144/25, 12/25, 132/25, 96/25, LenUnit.pt, some BoxKind.table⟩,
       ⟨"cell-0-1-0", 12/25, 108/25, 132/25, 96/25, LenUnit.pt, some BoxKind.table⟩,
       ⟨"cell-0-1-1", 144/25, 108/25, 132/25, 96/25, LenUnit.pt, some BoxKind.table⟩] := by
  constructor
  · with_unfolding_all rfl
  · with_unfolding_all rfl
